import Mathlib

/-!
Verification of the K-DIN monthly report dashboard (src/app.py).

The file shallowly embeds the data model of the program and operations as Lean
definitions and proves the specified properties about them.  Dataframes are
modelled as lists of rows; pandas operations become the corresponding list
operations.  Where the source delegates a behaviour to a library whose code
is not in the repository (the `st.cache_data` TTL cache, the secret-store
validation inside `create_client`), the definition is modelled from the
specification and says so in its doc comment.
-/

namespace KDin

/-! ### Data model -/

/-- A report-count row as returned by the backend RPC
`rpc_monthly_org_reports` (spec section 3; src/app.py line 89 lists the
columns). -/
structure Row where
  month : String
  orgGroupId : Nat
  orgGroupName : String
  orgType : String
  unique_users : Nat
  session_count : Nat
  report_count : Nat
deriving DecidableEq

/-- The aggregation key (orgGroupId, orgGroupName, orgType) used by
`groupby` at src/app.py line 103. -/
abbrev GroupKey := Nat × String × String

/-- The aggregation key of a row. -/
def rowKey (r : Row) : GroupKey := (r.orgGroupId, r.orgGroupName, r.orgType)

/-! ### String order

Python compares strings lexicographically by code points; `code` exposes a
code points of a string so that the comparisons in `sorted` and `sort_values`
can be stated with the (kernel-computable) lexicographic order on
`List Nat`. -/

/-- Code-point sequence of a string. -/
def code (s : String) : List Nat := s.data.map Char.toNat

/-- Lexicographic comparison of strings by code points; the order used by
the Python builtin `sorted` and by pandas `sort_values` on string columns. -/
def strLE (a b : String) : Prop := code a ≤ code b

/-- Strict lexicographic comparison of strings by code points. -/
def strLT (a b : String) : Prop := code a < code b

instance : DecidableRel strLE := fun a b => by unfold strLE; infer_instance

instance : DecidableRel strLT := fun a b => by unfold strLT; infer_instance

instance : IsTotal String strLE := ⟨fun a b => le_total (code a) (code b)⟩

instance : IsTrans String strLE := ⟨fun _ _ _ h1 h2 => le_trans h1 h2⟩

/-! ### First-seen deduplication

`Series.unique()` (src/app.py lines 59-60) returns the distinct values in
first-seen order. -/

/-- Worker for `uniqueFirstSeen`: `seen` collects values already emitted. -/
def uniqueAux {α : Type} [DecidableEq α] (seen : List α) : List α → List α
  | [] => []
  | a :: l => if a ∈ seen then uniqueAux seen l else a :: uniqueAux (a :: seen) l

/-- Distinct elements of a list in first-seen order; the embedding of
pandas `Series.unique()`. -/
def uniqueFirstSeen {α : Type} [DecidableEq α] (l : List α) : List α :=
  uniqueAux [] l

/-- Index of the first occurrence of `x` (length of the list if absent);
used to state the first-seen ordering property. -/
def firstIdx {α : Type} [DecidableEq α] (x : α) : List α → Nat
  | [] => 0
  | a :: l => if a = x then 0 else firstIdx x l + 1

theorem mem_uniqueAux {α : Type} [DecidableEq α] (x : α) :
    ∀ (l seen : List α), x ∈ uniqueAux seen l ↔ x ∈ l ∧ x ∉ seen := by
  intro l
  induction l with
  | nil => intro seen; simp [uniqueAux]
  | cons a t ih =>
    intro seen
    by_cases ha : a ∈ seen
    · simp only [uniqueAux, if_pos ha, ih, List.mem_cons]
      constructor
      · rintro ⟨hx, hs⟩; exact ⟨Or.inr hx, hs⟩
      · rintro ⟨hx | hx, hs⟩
        · exact absurd (hx ▸ ha) hs
        · exact ⟨hx, hs⟩
    · simp only [uniqueAux, if_neg ha, List.mem_cons, ih, List.mem_cons]
      constructor
      · rintro (rfl | ⟨hx, hs⟩)
        · exact ⟨Or.inl rfl, ha⟩
        · exact ⟨Or.inr hx, fun hc => hs (Or.inr hc)⟩
      · rintro ⟨rfl | hx, hs⟩
        · exact Or.inl rfl
        · by_cases hxa : x = a
          · exact Or.inl hxa
          · exact Or.inr ⟨hx, fun hc => hc.elim (fun h => hxa h) hs⟩

theorem mem_uniqueFirstSeen {α : Type} [DecidableEq α] (l : List α) (x : α) :
    x ∈ uniqueFirstSeen l ↔ x ∈ l := by
  simp [uniqueFirstSeen, mem_uniqueAux]

theorem uniqueAux_sublist {α : Type} [DecidableEq α] :
    ∀ (l seen : List α), List.Sublist (uniqueAux seen l) l := by
  intro l
  induction l with
  | nil => intro seen; simp [uniqueAux]
  | cons a t ih =>
    intro seen
    by_cases ha : a ∈ seen
    · simpa [uniqueAux, if_pos ha] using (ih seen).cons a
    · simpa [uniqueAux, if_neg ha] using (ih (a :: seen)).cons₂ a

theorem uniqueFirstSeen_sublist {α : Type} [DecidableEq α] (l : List α) :
    List.Sublist (uniqueFirstSeen l) l :=
  uniqueAux_sublist l []

theorem nodup_uniqueAux {α : Type} [DecidableEq α] :
    ∀ (l seen : List α), (uniqueAux seen l).Nodup := by
  intro l
  induction l with
  | nil => intro seen; simp [uniqueAux]
  | cons a t ih =>
    intro seen
    by_cases ha : a ∈ seen
    · simpa [uniqueAux, if_pos ha] using ih seen
    · simp only [uniqueAux, if_neg ha, List.nodup_cons]
      refine ⟨fun hc => ?_, ih (a :: seen)⟩
      exact ((mem_uniqueAux a t (a :: seen)).1 hc).2 (List.mem_cons_self a seen)

theorem nodup_uniqueFirstSeen {α : Type} [DecidableEq α] (l : List α) :
    (uniqueFirstSeen l).Nodup :=
  nodup_uniqueAux l []

theorem firstIdx_cons_ne {α : Type} [DecidableEq α] (x a : α) (l : List α)
    (h : a ≠ x) : firstIdx x (a :: l) = firstIdx x l + 1 := by
  simp [firstIdx, h]

theorem pairwise_firstIdx_uniqueAux {α : Type} [DecidableEq α] :
    ∀ (l seen : List α),
      (uniqueAux seen l).Pairwise (fun x y => firstIdx x l < firstIdx y l) := by
  intro l
  induction l with
  | nil => intro seen; simp [uniqueAux]
  | cons a t ih =>
    intro seen
    by_cases ha : a ∈ seen
    · rw [uniqueAux, if_pos ha]
      refine (ih seen).imp_of_mem ?_
      intro x y hx hy hlt
      have hxs : x ∉ seen := ((mem_uniqueAux x t seen).1 hx).2
      have hys : y ∉ seen := ((mem_uniqueAux y t seen).1 hy).2
      have hxa : a ≠ x := fun h => hxs (h ▸ ha)
      have hya : a ≠ y := fun h => hys (h ▸ ha)
      rw [firstIdx_cons_ne x a t hxa, firstIdx_cons_ne y a t hya]
      omega
    · rw [uniqueAux, if_neg ha]
      refine List.Pairwise.cons ?_ ?_
      · intro y hy
        have hyn : y ∉ a :: seen := ((mem_uniqueAux y t (a :: seen)).1 hy).2
        have hya : a ≠ y := fun h => hyn (h ▸ List.mem_cons_self a seen)
        rw [firstIdx_cons_ne y a t hya]
        simp [firstIdx]
      · refine (ih (a :: seen)).imp_of_mem ?_
        intro x y hx hy hlt
        have hxs : x ∉ a :: seen := ((mem_uniqueAux x t (a :: seen)).1 hx).2
        have hys : y ∉ a :: seen := ((mem_uniqueAux y t (a :: seen)).1 hy).2
        have hxa : a ≠ x := fun h => hxs (h ▸ List.mem_cons_self a seen)
        have hya : a ≠ y := fun h => hys (h ▸ List.mem_cons_self a seen)
        rw [firstIdx_cons_ne x a t hxa, firstIdx_cons_ne y a t hya]
        omega

theorem pairwise_firstIdx_uniqueFirstSeen {α : Type} [DecidableEq α] (l : List α) :
    (uniqueFirstSeen l).Pairwise (fun x y => firstIdx x l < firstIdx y l) :=
  pairwise_firstIdx_uniqueAux l []

/-! ### Type-filter selector (src/app.py lines 26-46)

The selectbox offers the three labels 모두 / PaAN / PaAN 이외; the payload
maps them to None / "PaAN" / "NOT_PaAN" (line 43). -/

/-- The three organisation-type filter choices. -/
inductive TypeOption : Type
  | all : TypeOption
  | paan : TypeOption
  | notPaan : TypeOption
deriving DecidableEq

/-- The dictionary at src/app.py line 43 sending the selectbox label to the
RPC `p_type` parameter. -/
def p_type_of : TypeOption → Option String
  | .all => none
  | .paan => some ("PaAN")
  | .notPaan => some ("NOT_PaAN")

/-- The Python idiom `x or None` on an optional list: `None` and the empty list
both become `None` (src/app.py lines 44-45). -/
def listOrNone (x : Option (List String)) : Option (List String) :=
  match x with
  | none => none
  | some l => if l.isEmpty then none else some l

/-- The RPC payload built at src/app.py lines 42-46. -/
structure Payload where
  p_type : Option String
  p_months : Option (List String)
  p_orgs : Option (List String)
deriving DecidableEq

/-- Payload construction (src/app.py lines 42-46). -/
def mkPayload (t : TypeOption) (months orgs : Option (List String)) : Payload :=
  { p_type := p_type_of t, p_months := listOrNone months, p_orgs := listOrNone orgs }

/-- The payload of the one fetch the app performs: src/app.py line 53 calls
`fetch_data(type_option, None, None)`. -/
def app_fetch_payload (t : TypeOption) : Payload :=
  mkPayload t none none

/-! ### Remote data fetcher (src/app.py lines 40-51) -/

/-- Row order used by `df.sort_values(["month", "orgGroupName"])`
(src/app.py line 50): month ascending, then organisation name ascending. -/
def rowOrdLE (a b : Row) : Prop :=
  strLT a.month b.month ∨ (code a.month = code b.month ∧ strLE a.orgGroupName b.orgGroupName)

instance : DecidableRel rowOrdLE := fun a b => by unfold rowOrdLE; infer_instance

instance : IsTotal Row rowOrdLE where
  total a b := by
    rcases lt_trichotomy (code a.month) (code b.month) with h | h | h
    · exact Or.inl (Or.inl h)
    · rcases le_total (code a.orgGroupName) (code b.orgGroupName) with h2 | h2
      · exact Or.inl (Or.inr ⟨h, h2⟩)
      · exact Or.inr (Or.inr ⟨h.symm, h2⟩)
    · exact Or.inr (Or.inl h)

instance : IsTrans Row rowOrdLE where
  trans a b c hab hbc := by
    rcases hab with hab | ⟨hab, hab2⟩
    · rcases hbc with hbc | ⟨hbc, _⟩
      · exact Or.inl (lt_trans hab hbc)
      · exact Or.inl (lt_of_lt_of_eq hab hbc)
    · rcases hbc with hbc | ⟨hbc, hbc2⟩
      · exact Or.inl (lt_of_eq_of_lt hab hbc)
      · exact Or.inr ⟨hab.trans hbc, le_trans hab2 hbc2⟩

/-- The data-shaping part of `fetch_data` (src/app.py lines 40-51): the RPC
response `res.data` is either a row list or null; `res.data or []` turns
null (and the empty list) into `[]`; a non-empty frame is sorted by
(month, orgGroupName).  The `@st.cache_data` memoisation wrapping this body
is modelled separately by `cachedFetch`. -/
def fetch_data (respData : Option (List Row)) : List Row :=
  if (respData.getD []).isEmpty then respData.getD []
  else List.insertionSort rowOrdLE (respData.getD [])

/-! ### TTL memoisation of the fetcher -/

/-- Cache key: the argument tuple of `fetch_data` (src/app.py line 41). -/
abbrev FetchKey := TypeOption × Option (List String) × Option (List String)

/-- One memoisation entry: key, cached value and the time it was stored. -/
structure CacheEntry where
  key : FetchKey
  value : List Row
  stamp : Nat
deriving DecidableEq

/-- Cache state, with a counter of backend invocations so that "no second
backend call" is statable. -/
structure CacheState where
  entries : List CacheEntry
  backendCalls : Nat
deriving DecidableEq

/-- The freshness window of `@st.cache_data(ttl=300)` (src/app.py line 40),
in seconds. -/
def cacheTTL : Nat := 300

/-- Modelled from the spec: the body of `@st.cache_data(ttl=300)` is
streamlit library code, not part of src/.  Spec sections 4.2 and 9 describe
it as a keyed cache storing (value, timestamp): a lookup whose entry is
younger than the TTL returns the cached value without calling the backend;
otherwise the backend is called and the result stored with the current
time. -/
def cachedFetch (backend : FetchKey → List Row) (now : Nat) (k : FetchKey)
    (s : CacheState) : List Row × CacheState :=
  match s.entries.find? (fun e => decide (e.key = k)) with
  | some e =>
      if now < e.stamp + cacheTTL then (e.value, s)
      else
        (backend k,
          ⟨⟨k, backend k, now⟩ :: s.entries.filter (fun e2 => decide (e2.key ≠ k)),
            s.backendCalls + 1⟩)
  | none =>
      (backend k, ⟨⟨k, backend k, now⟩ :: s.entries, s.backendCalls + 1⟩)

/-! ### Startup and configuration (src/app.py lines 7-19) -/

/-- The host-managed secret store `st.secrets`, as a partial map. -/
def SecretStore : Type := String → Option String

/-- The Python idiom `a or b` on optional strings: `None` and the empty string are
falsy, so either falls through to `b` (src/app.py lines 10-13). -/
def pyOr (a b : Option String) : Option String :=
  match a with
  | some v => if v = "" then b else some v
  | none => b

/-- The two ways startup can fail: `st.secrets["SUPABASE_URL"]` raises a
KeyError, or `create_client` rejects a missing access key. -/
inductive InitError : Type
  | missingUrl : InitError
  | missingKey : InitError
deriving DecidableEq

/-- A connected backend client. -/
structure Client where
  url : String
  key : String
deriving DecidableEq

/-- Modelled from the spec: `create_client` is supabase library code, not
part of src/.  Per spec sections 6 and 7 the absence of either secret is a
startup-fatal condition, so a missing (or falsy empty) url or key is
rejected. -/
def create_client (url : String) (key : Option String) : Except InitError Client :=
  if url = "" then .error .missingUrl
  else
    match key with
    | none => .error .missingKey
    | some k => if k = "" then .error .missingKey else .ok ⟨url, k⟩

/-- Embedding of `init_supabase` (src/app.py lines 7-14): reads `SUPABASE_URL` by
indexing (a missing key raises), takes the first truthy of
`SUPABASE_SECRET_KEY` and `SUPABASE_PUB_KEY`, and hands both to
`create_client`. -/
def init_supabase (s : SecretStore) : Except InitError Client :=
  match s ("SUPABASE_URL") with
  | none => .error .missingUrl
  | some url => create_client url (pyOr (s ("SUPABASE_SECRET_KEY")) (s ("SUPABASE_PUB_KEY")))

/-- Result of program startup: either aborted before any UI, or the UI runs
with a client. -/
inductive Startup : Type
  | aborted : InitError → Startup
  | ui : Client → Startup
deriving DecidableEq

/-- Startup: `init_supabase` runs at src/app.py line 16, before the first streamlit
UI call at line 18; a raise there aborts the script with no UI shown. -/
def runStartup (s : SecretStore) : Startup :=
  match init_supabase s with
  | .error e => .aborted e
  | .ok c => .ui c

/-! ### Filter-option deriver (src/app.py lines 59-80) -/

/-- Embedding of `all_months = sorted(df["month"].unique().tolist())`
(line 59): the
distinct months present, sorted ascending. -/
def all_months (df : List Row) : List String :=
  List.insertionSort strLE (uniqueFirstSeen (df.map Row.month))

/-- Embedding of `all_orgs = df["orgGroupName"].unique().tolist()`
(line 60): the
distinct organisation names present, in first-seen order. -/
def all_orgs (df : List Row) : List String :=
  uniqueFirstSeen (df.map Row.orgGroupName)

/-- The month multiselect has `default=all_months` (line 68): all options
selected. -/
def default_selected_months (df : List Row) : List String := all_months df

/-- The organisation multiselect has `default=all_orgs` (line 77): all
options selected. -/
def default_selected_orgs (df : List Row) : List String := all_orgs df

/-! ### Row filter (src/app.py lines 83-87)

`filtered = df.copy()` then `.isin` filters, each applied only when the
selection list is truthy, i.e. non-empty. -/

/-- The month step (line 84-85): applied only when the selection is
truthy. -/
def filter_months (df : List Row) (selected_months : List String) : List Row :=
  if selected_months.isEmpty then df
  else df.filter (fun r => decide (r.month ∈ selected_months))

/-- The organisation step (line 86-87): applied only when the selection is
truthy. -/
def filter_orgs (df : List Row) (selected_orgs : List String) : List Row :=
  if selected_orgs.isEmpty then df
  else df.filter (fun r => decide (r.orgGroupName ∈ selected_orgs))

/-- The client-side row filter: the month step followed by the
organisation step. -/
def filtered (df : List Row) (selected_months selected_orgs : List String) :
    List Row :=
  filter_orgs (filter_months df selected_months) selected_orgs

/-! ### Table pane and its two empty-state messages
(src/app.py lines 55-57 and 89-93) -/

/-- Message of `st.info` when the fetch returned no rows (line 56). -/
def noResultsMsg : String := "조회 결과가 없습니다. 조건을 바꿔보세요."

/-- Message of `st.warning` when the filtered result is empty (line 91). -/
def noMatchMsg : String := "필터 결과가 없습니다. 월 또는 조직 선택을 조정해 주세요."

/-- What the table area shows: the fetch-empty info (followed by
`st.stop()`), the filter-empty warning, or the filtered table. -/
inductive TablePane : Type
  | stopNoResults : TablePane
  | warnNoMatch : TablePane
  | table : List Row → TablePane
deriving DecidableEq

/-- Rendering of the table area: line 55 stops on an empty fetch before the
filters are built; otherwise lines 90-93 warn on an empty filtered result
or show the table. -/
def renderTable (df : List Row) (selected_months selected_orgs : List String) :
    TablePane :=
  if df.isEmpty then .stopNoResults
  else if (filtered df selected_months selected_orgs).isEmpty then .warnNoMatch
  else .table (filtered df selected_months selected_orgs)

/-! ### Aggregator (src/app.py lines 102-108)

`groupby(["orgGroupId", "orgGroupName", "orgType"], as_index=False)` with
default `sort=True` emits one row per distinct key, keys ordered
ascending; `.agg` sums the two count columns; `sort_values
("total_reports", ascending=False)` then orders descending by total
reports.  The pandas default sort kind does not document any tie order, so
the sort of line 106 guarantees only a permutation of the groups that is
ordered descending by total reports; `SortValuesDesc` states exactly that
contract, and `totals` picks one admissible output (an insertion sort) so
that the pipeline stays executable. -/

/-- One output row of the aggregation. -/
structure GroupTotal where
  orgGroupId : Nat
  orgGroupName : String
  orgType : String
  total_sessions : Nat
  total_reports : Nat
deriving DecidableEq

/-- The group key of an aggregated row. -/
def keyOf (g : GroupTotal) : GroupKey := (g.orgGroupId, g.orgGroupName, g.orgType)

/-- Ascending lexicographic order on group keys, the order in which pandas
`groupby(sort=True)` emits the groups. -/
def keyLE (a b : GroupKey) : Prop :=
  a.1 < b.1 ∨
    (a.1 = b.1 ∧
      (strLT a.2.1 b.2.1 ∨ (code a.2.1 = code b.2.1 ∧ strLE a.2.2 b.2.2)))

instance : DecidableRel keyLE := fun a b => by unfold keyLE; infer_instance

/-- The rows of `df` belonging to group `k`. -/
def groupRows (df : List Row) (k : GroupKey) : List Row :=
  df.filter (fun r => decide (rowKey r = k))

/-- The aggregated row of group `k`: both count columns summed over the
rows of the group (src/app.py lines 104-105). -/
def mkTotal (df : List Row) (k : GroupKey) : GroupTotal where
  orgGroupId := k.1
  orgGroupName := k.2.1
  orgType := k.2.2
  total_sessions := ((groupRows df k).map Row.session_count).sum
  total_reports := ((groupRows df k).map Row.report_count).sum

/-- The distinct group keys of `df`, in the ascending order used by
`groupby(sort=True)`. -/
def groupKeys (df : List Row) : List GroupKey :=
  List.insertionSort keyLE (uniqueFirstSeen (df.map rowKey))

/-- The aggregation before the descending sort: one `GroupTotal` per
distinct key (src/app.py lines 103-105). -/
def groupAgg (df : List Row) : List GroupTotal :=
  (groupKeys df).map (mkTotal df)

/-- Descending-by-total-reports comparison used by `sort_values
("total_reports", ascending=False)` (line 106). -/
def repGE (a b : GroupTotal) : Prop := b.total_reports ≤ a.total_reports

instance : DecidableRel repGE := fun a b => by unfold repGE; infer_instance

instance : IsTotal GroupTotal repGE :=
  ⟨fun a b => Nat.le_total b.total_reports a.total_reports⟩

instance : IsTrans GroupTotal repGE :=
  ⟨fun _ _ _ h1 h2 => Nat.le_trans h2 h1⟩

/-- Embedding of `totals` (src/app.py lines 102-108): the aggregation
sorted descending by total reports.  This definition fixes one admissible
result of the line 106 sort; the code itself does not determine the order
of entries with equal total reports. -/
def totals (df : List Row) : List GroupTotal :=
  List.insertionSort repGE (groupAgg df)

/-- The contract of `sort_values("total_reports", ascending=False)`
(src/app.py lines 106 and 115) with its default sort kind: the result is a
permutation of the input, ordered descending by total reports.  Pandas
documents the default kind as not stable, so nothing beyond this is
guaranteed; any two entries with equal total reports may come out in
either order. -/
def SortValuesDesc (input output : List GroupTotal) : Prop :=
  output.Perm input ∧ output.Sorted repGE

/-! ### Chart preparation (src/app.py lines 113-139) -/

/-- Embedding of `plot_df = totals.head(top_n)` (line 113): the first `top_n` aggregated
rows. -/
def plot_df (df : List Row) (top_n : Nat) : List GroupTotal :=
  (totals df).take top_n

/-- The `label` column assigned at line 113: the organisation name. -/
def labelOf (g : GroupTotal) : String := g.orgGroupName

/-- Embedding of `org_order` (line 115): `plot_df` re-sorted descending by
total reports, projected to labels.  As with `totals`, this fixes one
admissible result of the unstable line 115 sort; when entries of `plot_df`
tie on total reports the code does not determine their order here. -/
def org_order (df : List Row) (top_n : Nat) : List String :=
  (List.insertionSort repGE (plot_df df top_n)).map labelOf

/-- One molten record of `plot_df.melt(...)` (lines 117-122). -/
structure PlotRecord where
  label : String
  metric : String
  value : Nat
deriving DecidableEq

/-- Embedding of `plot_long` (lines 117-122): pandas `melt` with
`value_vars=["total_reports", "total_sessions"]` stacks all
`total_reports` records, then all `total_sessions` records. -/
def plot_long (df : List Row) (top_n : Nat) : List PlotRecord :=
  (plot_df df top_n).map (fun g => ⟨labelOf g, "total_reports", g.total_reports⟩)
    ++ (plot_df df top_n).map (fun g => ⟨labelOf g, "total_sessions", g.total_sessions⟩)

/-- Embedding of `metric_name_map` (lines 124-127) applied with `Series.map`, which
sends keys outside the dictionary to missing. -/
def metric_name_map (m : String) : Option String :=
  if m = "total_reports" then some ("Reports")
  else if m = "total_sessions" then some ("Sessions")
  else none

/-- The chart as configured at lines 132-147: the molten data with the
mapped metric labels, and the explicit x-axis category order passed as
`sort=org_order` (line 136). -/
structure ChartSpec where
  data : List (String × Option String × Nat)
  xSortOrder : List String
deriving DecidableEq

/-- The grouped bar chart built from `plot_long` and `org_order`. -/
def chart (df : List Row) (top_n : Nat) : ChartSpec where
  data := (plot_long df top_n).map (fun p => (p.label, metric_name_map p.metric, p.value))
  xSortOrder := org_order df top_n

/-! ### Sample data for witnesses -/

/-- Sample row: organisation A in January. -/
def rowA : Row := ⟨"2024-01", 1, "A", "PaAN", 3, 5, 10⟩

/-- Sample row: organisation B in January. -/
def rowB : Row := ⟨"2024-01", 2, "B", "PaAN", 4, 8, 30⟩

/-- Sample row: organisation A in February. -/
def rowC : Row := ⟨"2024-02", 1, "A", "PaAN", 2, 4, 7⟩

/-- A sample fetched row set. -/
def sampleDf : List Row := [rowA, rowB, rowC]

/-- Sample row: organisation A with ten reports, tying `rowE`. -/
def rowD : Row := ⟨"2024-01", 1, "A", "PaAN", 3, 5, 10⟩

/-- Sample row: organisation B with ten reports, tying `rowD`. -/
def rowE : Row := ⟨"2024-01", 2, "B", "PaAN", 4, 8, 10⟩

/-- A row set whose two groups tie on total reports. -/
def tieDf : List Row := [rowD, rowE]

/-- The aggregated group of `rowD`. -/
def groupA10 : GroupTotal := ⟨1, "A", "PaAN", 5, 10⟩

/-- The aggregated group of `rowE`. -/
def groupB10 : GroupTotal := ⟨2, "B", "PaAN", 8, 10⟩


/-! ### Helper lemmas about the embedded operations -/

theorem keyOf_mkTotal (df : List Row) (k : GroupKey) : keyOf (mkTotal df k) = k :=
  rfl

theorem sums_of_mem_groupAgg (df : List Row) (g : GroupTotal)
    (h : g ∈ groupAgg df) :
    g.total_reports = ((groupRows df (keyOf g)).map Row.report_count).sum ∧
    g.total_sessions = ((groupRows df (keyOf g)).map Row.session_count).sum := by
  obtain ⟨k, _, rfl⟩ := List.mem_map.1 h
  rw [keyOf_mkTotal]
  exact ⟨rfl, rfl⟩

theorem map_keyOf_groupAgg (df : List Row) :
    (groupAgg df).map keyOf = groupKeys df := by
  rw [groupAgg, List.map_map]
  have hcomp : keyOf ∘ mkTotal df = id := funext (fun k => keyOf_mkTotal df k)
  rw [hcomp, List.map_id]

theorem totals_perm_groupAgg (df : List Row) :
    (totals df).Perm (groupAgg df) :=
  List.perm_insertionSort repGE (groupAgg df)

theorem mem_totals (df : List Row) (g : GroupTotal) :
    g ∈ totals df ↔ g ∈ groupAgg df :=
  (totals_perm_groupAgg df).mem_iff

theorem totals_sorted (df : List Row) : (totals df).Sorted repGE :=
  List.sorted_insertionSort repGE (groupAgg df)

theorem groupKeys_perm (df : List Row) :
    (groupKeys df).Perm (uniqueFirstSeen (df.map rowKey)) :=
  List.perm_insertionSort keyLE (uniqueFirstSeen (df.map rowKey))

theorem totals_length (df : List Row) :
    (totals df).length = (uniqueFirstSeen (df.map rowKey)).length := by
  rw [(totals_perm_groupAgg df).length_eq, groupAgg, List.length_map,
    (groupKeys_perm df).length_eq]

theorem filter_months_sublist (df : List Row) (ms : List String) :
    List.Sublist (filter_months df ms) df := by
  rw [filter_months]
  by_cases h : ms.isEmpty
  · rw [if_pos h]
  · rw [if_neg h]; exact List.filter_sublist df

theorem filter_orgs_sublist (df : List Row) (os : List String) :
    List.Sublist (filter_orgs df os) df := by
  rw [filter_orgs]
  by_cases h : os.isEmpty
  · rw [if_pos h]
  · rw [if_neg h]; exact List.filter_sublist df

theorem filtered_sublist (df : List Row) (ms os : List String) :
    List.Sublist (filtered df ms os) df :=
  (filter_orgs_sublist (filter_months df ms) os).trans (filter_months_sublist df ms)

theorem month_mem_of_mem_filtered (df : List Row) (ms os : List String)
    (hms : ms ≠ []) (r : Row) (hr : r ∈ filtered df ms os) : r.month ∈ ms := by
  have h1 : r ∈ filter_months df ms :=
    (filter_orgs_sublist (filter_months df ms) os).subset hr
  have hne : ¬ ms.isEmpty = true := by
    cases ms with
    | nil => exact absurd rfl hms
    | cons m t => simp
  rw [filter_months, if_neg hne] at h1
  have := (List.mem_filter.1 h1).2
  simpa using this

theorem org_mem_of_mem_filtered (df : List Row) (ms os : List String)
    (hos : os ≠ []) (r : Row) (hr : r ∈ filtered df ms os) :
    r.orgGroupName ∈ os := by
  have hne : ¬ os.isEmpty = true := by
    cases os with
    | nil => exact absurd rfl hos
    | cons o t => simp
  rw [filtered, filter_orgs, if_neg hne] at hr
  have := (List.mem_filter.1 hr).2
  simpa using this

theorem filtered_nil_nil (df : List Row) : filtered df [] [] = df := by
  rw [filtered, filter_months, filter_orgs]
  simp

theorem fetch_data_sorted (respData : Option (List Row)) :
    (fetch_data respData).Sorted rowOrdLE := by
  rw [fetch_data]
  by_cases h : (respData.getD []).isEmpty
  · rw [if_pos h]
    rw [List.isEmpty_iff.1 h]
    exact List.sorted_nil
  · rw [if_neg h]
    exact List.sorted_insertionSort rowOrdLE (respData.getD [])

theorem fetch_data_perm (respData : Option (List Row)) :
    (fetch_data respData).Perm (respData.getD []) := by
  rw [fetch_data]
  by_cases h : (respData.getD []).isEmpty
  · rw [if_pos h]
  · rw [if_neg h]
    exact List.perm_insertionSort rowOrdLE (respData.getD [])

theorem cachedFetch_hit (backend : FetchKey → List Row) (now : Nat) (k : FetchKey)
    (s : CacheState) (e : CacheEntry)
    (hfind : s.entries.find? (fun e2 => decide (e2.key = k)) = some e)
    (hfresh : now < e.stamp + cacheTTL) :
    cachedFetch backend now k s = (e.value, s) := by
  unfold cachedFetch
  simp only [hfind]
  rw [if_pos hfresh]

theorem cachedFetch_expired_calls (backend : FetchKey → List Row) (now : Nat)
    (k : FetchKey) (s : CacheState) (e : CacheEntry)
    (hfind : s.entries.find? (fun e2 => decide (e2.key = k)) = some e)
    (hstale : e.stamp + cacheTTL ≤ now) :
    (cachedFetch backend now k s).2.backendCalls = s.backendCalls + 1 := by
  unfold cachedFetch
  simp only [hfind]
  rw [if_neg (not_lt.2 hstale)]

/-- Whether startup ended in an abort before any UI. -/
def isAborted : Startup → Bool
  | .aborted _ => true
  | .ui _ => false

/-! ### The claims -/

/-- C1, counterexample to the claim as stated: with the empty month
selection (and organisation selection A), the filter returns `rowA`, whose
month is not a member of the empty selected-months list — the code skips
the month filter entirely when the selection is empty. -/
theorem C1_counterexample :
    rowA ∈ filtered sampleDf [] ["A"] ∧ rowA.month ∉ ([] : List String) := by
  constructor <;> decide

/-- C1 (amended): the row filter always returns a subset (in fact a
sublist) of the fetched rows; whenever the selected-months list is
non-empty the month of every returned row is a member of it, and whenever the
selected-organisations list is non-empty the organisation
name of every returned row is a member of it.  An empty selection leaves that dimension
unfiltered. -/
theorem C1_row_filter (df : List Row) (ms os : List String) :
    List.Sublist (filtered df ms os) df ∧
    (ms ≠ [] → ∀ r ∈ filtered df ms os, r.month ∈ ms) ∧
    (os ≠ [] → ∀ r ∈ filtered df ms os, r.orgGroupName ∈ os) :=
  ⟨filtered_sublist df ms os,
   fun hms r hr => month_mem_of_mem_filtered df ms os hms r hr,
   fun hos r hr => org_mem_of_mem_filtered df ms os hos r hr⟩

/-- C1, witness: the amended theorem evaluated on the sample data with both
selections non-empty. -/
theorem C1_witness :
    List.Sublist (filtered sampleDf ["2024-01"] ["A"]) sampleDf ∧
    rowA.month ∈ (["2024-01"] : List String) ∧
    rowA.orgGroupName ∈ (["A"] : List String) := by
  obtain ⟨h1, h2, h3⟩ := C1_row_filter sampleDf ["2024-01"] ["A"]
  exact ⟨h1, h2 (by decide) rowA (by decide), h3 (by decide) rowA (by decide)⟩

/-- C2, counterexample to the claim as stated: after deselecting every
month and every organisation the filtered result is all of `sampleDf`, not
empty, and the table area does not show the no-rows-match warning — the
code treats an empty selection as select-all and cannot distinguish an
active deselect-all from the initial default. -/
theorem C2_counterexample :
    filtered sampleDf [] [] ≠ [] ∧
    renderTable sampleDf [] [] ≠ TablePane.warnNoMatch := by
  constructor <;> decide

/-- C2 (amended): deselecting every month and organisation leaves both
dimensions unfiltered, so the filter returns all fetched rows and (for a
non-empty fetch) the table is shown.  The no-rows-match warning — whose
message differs from the backend-returned-nothing message — is shown
exactly when the fetch is non-empty but the filtered result is empty,
which requires non-empty selections that match no row. -/
theorem C2_empty_selection_is_select_all (df : List Row) :
    filtered df [] [] = df ∧
    noResultsMsg ≠ noMatchMsg ∧
    (df ≠ [] → renderTable df [] [] = TablePane.table df) ∧
    (∀ ms os, df ≠ [] → filtered df ms os = [] →
      renderTable df ms os = TablePane.warnNoMatch) := by
  refine ⟨filtered_nil_nil df, by decide, fun hdf => ?_, fun ms os hdf hemp => ?_⟩
  · cases df with
    | nil => exact absurd rfl hdf
    | cons d t => simp [renderTable, filtered_nil_nil]
  · cases df with
    | nil => exact absurd rfl hdf
    | cons d t => simp [renderTable, hemp]

/-- C2, witness: the amended theorem evaluated on the sample data, with the
warning branch reached through the non-empty selections (2024-02, B) that
match no row. -/
theorem C2_witness :
    filtered sampleDf [] [] = sampleDf ∧
    noResultsMsg ≠ noMatchMsg ∧
    renderTable sampleDf [] [] = TablePane.table sampleDf ∧
    renderTable sampleDf ["2024-02"] ["B"] = TablePane.warnNoMatch := by
  obtain ⟨h1, h2, h3, h4⟩ := C2_empty_selection_is_select_all sampleDf
  exact ⟨h1, h2, h3 (by decide), h4 ["2024-02"] ["B"] (by decide) (by decide)⟩

/-- C7: fetching with the same key tuple against the cache within the TTL
window returns the value of the first fetch and leaves the cache state —
including the backend-call counter — unchanged; once the window has
expired, the backend is invoked again. -/
theorem C7_cache_ttl (backend : FetchKey → List Row) (k : FetchKey) (t0 t1 : Nat) :
    (t1 < t0 + cacheTTL →
      cachedFetch backend t1 k (cachedFetch backend t0 k ⟨[], 0⟩).2 =
        ((cachedFetch backend t0 k ⟨[], 0⟩).1,
          (cachedFetch backend t0 k ⟨[], 0⟩).2)) ∧
    (t0 + cacheTTL ≤ t1 →
      (cachedFetch backend t1 k (cachedFetch backend t0 k ⟨[], 0⟩).2).2.backendCalls =
        (cachedFetch backend t0 k ⟨[], 0⟩).2.backendCalls + 1) := by
  have h0 : cachedFetch backend t0 k ⟨[], 0⟩ =
      (backend k, ⟨[⟨k, backend k, t0⟩], 1⟩) := rfl
  constructor <;> intro ht <;> rw [h0]
  · exact cachedFetch_hit backend t1 k _ ⟨k, backend k, t0⟩
      (List.find?_cons_of_pos _ (by simp)) ht
  · exact cachedFetch_expired_calls backend t1 k _ ⟨k, backend k, t0⟩
      (List.find?_cons_of_pos _ (by simp)) ht

/-- A sample backend for the cache witness. -/
def backend_ex : FetchKey → List Row := fun _ => sampleDf

/-- A sample fetch-argument tuple. -/
def fetchKey_ex : FetchKey := (TypeOption.all, none, none)

/-- C7, witness: a second fetch at t=100 is served from the cache
unchanged; a fetch at t=400 re-invokes the backend. -/
theorem C7_witness :
    cachedFetch backend_ex 100 fetchKey_ex
        (cachedFetch backend_ex 0 fetchKey_ex ⟨[], 0⟩).2 =
      ((cachedFetch backend_ex 0 fetchKey_ex ⟨[], 0⟩).1,
        (cachedFetch backend_ex 0 fetchKey_ex ⟨[], 0⟩).2) ∧
    (cachedFetch backend_ex 400 fetchKey_ex
        (cachedFetch backend_ex 0 fetchKey_ex ⟨[], 0⟩).2).2.backendCalls =
      (cachedFetch backend_ex 0 fetchKey_ex ⟨[], 0⟩).2.backendCalls + 1 :=
  ⟨(C7_cache_ttl backend_ex fetchKey_ex 0 100).1 (by decide),
   (C7_cache_ttl backend_ex fetchKey_ex 0 400).2 (by decide)⟩

/-- C9: if the backend URL secret is absent, or the access key is absent
(neither key entry present or truthy), startup aborts before any UI is
shown. -/
theorem C9_missing_secret_aborts (s : SecretStore)
    (h : s ("SUPABASE_URL") = none ∨
      pyOr (s ("SUPABASE_SECRET_KEY")) (s ("SUPABASE_PUB_KEY")) = none) :
    isAborted (runStartup s) = true := by
  rcases h with h | h
  · simp [runStartup, init_supabase, h, isAborted]
  · cases hurl : s ("SUPABASE_URL") with
    | none => simp [runStartup, init_supabase, hurl, isAborted]
    | some url =>
      by_cases hu : url = ""
      · simp [runStartup, init_supabase, create_client, hurl, h, hu, isAborted]
      · simp [runStartup, init_supabase, create_client, hurl, h, hu, isAborted]

/-- An entirely empty secret store. -/
def empty_secrets : SecretStore := fun _ => none

/-- C9, witness: with an empty secret store, startup aborts. -/
theorem C9_witness : isAborted (runStartup empty_secrets) = true :=
  C9_missing_secret_aborts empty_secrets (Or.inl rfl)

/-- C10: the only fetch call of the app passes both allow-lists as None
(src/app.py line 53), so for every type selection the RPC payload carries
p_months = null and p_orgs = null; month and organisation narrowing
happens only client-side. -/
theorem C10_app_payload_null_lists (t : TypeOption) :
    (app_fetch_payload t).p_months = none ∧ (app_fetch_payload t).p_orgs = none :=
  ⟨rfl, rfl⟩

/-- C3, counterexample to the tie-order part of the claim as stated: the
two groups of `tieDf` tie at ten total reports, the pre-sort group list is
[groupA10, groupB10], and the swapped list [groupB10, groupA10] also
satisfies everything the line 106 sort guarantees (`SortValuesDesc`).  The
code therefore does not ensure that ties keep the original group order:
pandas documents the default sort kind as not stable. -/
theorem C3_counterexample :
    groupAgg tieDf = [groupA10, groupB10] ∧
    groupA10.total_reports = groupB10.total_reports ∧
    groupA10 ≠ groupB10 ∧
    SortValuesDesc (groupAgg tieDf) [groupB10, groupA10] := by
  have hagg : groupAgg tieDf = [groupA10, groupB10] := by decide
  refine ⟨hagg, by decide, by decide, ?_, by decide⟩
  rw [hagg]
  exact List.Perm.swap groupA10 groupB10 []

/-- C3 (amended): the aggregator output consists of exactly one entry per
distinct (orgGroupId, orgGroupName, orgType) key of the filtered rows,
with both counters summed over the rows of the key, and it satisfies the
contract of the line 106 sort: a permutation of the pre-sort group list
`groupAgg`, ordered descending by total report count.  The order of
entries with equal total report counts is not determined by the code. -/
theorem C3_totals_grouping_sorting (df : List Row) (ms os : List String) :
    (∀ g ∈ totals (filtered df ms os),
        g.total_reports =
          ((groupRows (filtered df ms os) (keyOf g)).map Row.report_count).sum ∧
        g.total_sessions =
          ((groupRows (filtered df ms os) (keyOf g)).map Row.session_count).sum) ∧
    ((totals (filtered df ms os)).map keyOf).Perm
      (uniqueFirstSeen ((filtered df ms os).map rowKey)) ∧
    SortValuesDesc (groupAgg (filtered df ms os)) (totals (filtered df ms os)) := by
  refine ⟨fun g hg => sums_of_mem_groupAgg _ g ((mem_totals _ g).1 hg),
    ?_, totals_perm_groupAgg _, totals_sorted _⟩
  have h1 := (totals_perm_groupAgg (filtered df ms os)).map keyOf
  rw [map_keyOf_groupAgg] at h1
  exact h1.trans (groupKeys_perm _)

/-- C3, witness: on the sample data with everything selected, the totals
of group A are the sums over its two rows. -/
theorem C3_witness :
    (GroupTotal.mk 1 "A" "PaAN" 9 17).total_reports =
      ((groupRows (filtered sampleDf ["2024-01", "2024-02"] ["A", "B"])
          (keyOf (GroupTotal.mk 1 "A" "PaAN" 9 17))).map Row.report_count).sum ∧
    (GroupTotal.mk 1 "A" "PaAN" 9 17).total_sessions =
      ((groupRows (filtered sampleDf ["2024-01", "2024-02"] ["A", "B"])
          (keyOf (GroupTotal.mk 1 "A" "PaAN" 9 17))).map Row.session_count).sum := by
  obtain ⟨hsum, _, _⟩ :=
    C3_totals_grouping_sorting sampleDf ["2024-01", "2024-02"] ["A", "B"]
  exact hsum (GroupTotal.mk 1 "A" "PaAN" 9 17) (by decide)

/-- C4, counterexample to the category-order part of the claim as
stated: the two entries of the top-2 selection of `tieDf` tie at ten total
reports, so the swapped list also satisfies everything the line 115
re-sort guarantees (`SortValuesDesc`), yet its label sequence differs from
the label sequence of the top-N selection.  The chart category order is
therefore not guaranteed by the code to equal the descending top-N order
when total report counts tie. -/
theorem C4_counterexample :
    plot_df tieDf 2 = [groupA10, groupB10] ∧
    SortValuesDesc (plot_df tieDf 2) [groupB10, groupA10] ∧
    [groupB10, groupA10].map labelOf ≠ (plot_df tieDf 2).map labelOf := by
  have hplot : plot_df tieDf 2 = [groupA10, groupB10] := by decide
  refine ⟨hplot, ⟨?_, by decide⟩, by decide⟩
  rw [hplot]
  exact List.Perm.swap groupA10 groupB10 []

/-- C4 (amended): the top-N chart selection is the first N entries of the
descending totals, so its length is at most N and at most the number of
distinct organisation keys of the filtered rows; it is a prefix of the
full descending ordering (appending the dropped tail restores `totals`);
it is itself sorted descending; and the chart x-axis category order is the
label sequence of a list satisfying the line 115 re-sort contract on the
top-N selection — a permutation of it ordered descending by total reports.
When total report counts tie, the code does not determine the category
order beyond that. -/
theorem C4_top_n_chart (df : List Row) (ms os : List String) (top_n : Nat) :
    (plot_df (filtered df ms os) top_n).length ≤ top_n ∧
    (plot_df (filtered df ms os) top_n).length ≤
      (uniqueFirstSeen ((filtered df ms os).map rowKey)).length ∧
    plot_df (filtered df ms os) top_n ++ (totals (filtered df ms os)).drop top_n =
      totals (filtered df ms os) ∧
    (plot_df (filtered df ms os) top_n).Sorted repGE ∧
    SortValuesDesc (plot_df (filtered df ms os) top_n)
      (List.insertionSort repGE (plot_df (filtered df ms os) top_n)) ∧
    (chart (filtered df ms os) top_n).xSortOrder =
      (List.insertionSort repGE (plot_df (filtered df ms os) top_n)).map labelOf := by
  have hsorted : (plot_df (filtered df ms os) top_n).Sorted repGE :=
    (totals_sorted (filtered df ms os)).sublist
      (List.take_sublist top_n (totals (filtered df ms os)))
  refine ⟨?_, ?_, List.take_append_drop top_n _, hsorted,
    ⟨List.perm_insertionSort repGE _, List.sorted_insertionSort repGE _⟩, rfl⟩
  · rw [plot_df]
    exact List.length_take_le top_n _
  · rw [plot_df, List.length_take, ← totals_length (filtered df ms os)]
    exact min_le_right _ _

/-- C5: every entry of the aggregator output has total_reports equal to
the sum of report_count over the filtered rows of its group, and
total_sessions equal to the sum of session_count over the same rows. -/
theorem C5_per_group_sums (df : List Row) (ms os : List String) (g : GroupTotal)
    (hg : g ∈ totals (filtered df ms os)) :
    g.total_reports =
      ((groupRows (filtered df ms os) (keyOf g)).map Row.report_count).sum ∧
    g.total_sessions =
      ((groupRows (filtered df ms os) (keyOf g)).map Row.session_count).sum :=
  sums_of_mem_groupAgg _ g ((mem_totals _ g).1 hg)

/-- C5, witness: on the January rows, the totals of group B are the sums
over its single row. -/
theorem C5_witness :
    (GroupTotal.mk 2 "B" "PaAN" 8 30).total_reports =
      ((groupRows (filtered sampleDf ["2024-01"] ["A", "B"])
          (keyOf (GroupTotal.mk 2 "B" "PaAN" 8 30))).map Row.report_count).sum ∧
    (GroupTotal.mk 2 "B" "PaAN" 8 30).total_sessions =
      ((groupRows (filtered sampleDf ["2024-01"] ["A", "B"])
          (keyOf (GroupTotal.mk 2 "B" "PaAN" 8 30))).map Row.session_count).sum :=
  C5_per_group_sums sampleDf ["2024-01"] ["A", "B"]
    (GroupTotal.mk 2 "B" "PaAN" 8 30) (by decide)

/-- C6: the fetcher result is sorted by month ascending then
organisation name ascending, is a permutation of the backend rows, and
is empty both for a null payload and for an empty row list. -/
theorem C6_fetch_sorted_and_empty (respData : Option (List Row)) :
    (fetch_data respData).Sorted rowOrdLE ∧
    (fetch_data respData).Perm (respData.getD []) ∧
    fetch_data none = [] ∧
    fetch_data (some []) = [] :=
  ⟨fetch_data_sorted respData, fetch_data_perm respData, rfl, rfl⟩

/-- C8: from a non-empty fetched row set, the month options are the
distinct months present sorted ascending, the organisation options are the
distinct organisation names present in first-seen order (strictly
increasing first-occurrence indices), and both multiselects default to all
options selected. -/
theorem C8_filter_options (df : List Row) (_hdf : df ≠ []) :
    (all_months df).Sorted strLE ∧
    (all_months df).Nodup ∧
    (∀ m, m ∈ all_months df ↔ m ∈ df.map Row.month) ∧
    (all_orgs df).Nodup ∧
    (∀ o, o ∈ all_orgs df ↔ o ∈ df.map Row.orgGroupName) ∧
    (all_orgs df).Pairwise (fun x y =>
      firstIdx x (df.map Row.orgGroupName) < firstIdx y (df.map Row.orgGroupName)) ∧
    default_selected_months df = all_months df ∧
    default_selected_orgs df = all_orgs df := by
  refine ⟨List.sorted_insertionSort strLE _, ?_, fun m => ?_,
    nodup_uniqueFirstSeen _, fun o => mem_uniqueFirstSeen _ o,
    pairwise_firstIdx_uniqueFirstSeen _, rfl, rfl⟩
  · exact ((List.perm_insertionSort strLE _).nodup_iff).2
      (nodup_uniqueFirstSeen (df.map Row.month))
  · rw [all_months, List.mem_insertionSort, mem_uniqueFirstSeen]

/-- C8, witness: the option lists and defaults evaluated on the sample
data. -/
theorem C8_witness :
    (all_months sampleDf).Sorted strLE ∧
    (all_months sampleDf).Nodup ∧
    (all_orgs sampleDf).Nodup ∧
    (all_orgs sampleDf).Pairwise (fun x y =>
      firstIdx x (sampleDf.map Row.orgGroupName) <
        firstIdx y (sampleDf.map Row.orgGroupName)) ∧
    default_selected_months sampleDf = all_months sampleDf ∧
    default_selected_orgs sampleDf = all_orgs sampleDf := by
  obtain ⟨h1, h2, _, h4, _, h6, h7, h8⟩ := C8_filter_options sampleDf (by decide)
  exact ⟨h1, h2, h4, h6, h7, h8⟩

end KDin
